import Mathlib

/-!
Verification of the skiboot LPC mailbox driver (`src/hw/lpc-mbox.c`).

The driver is shallowly embedded: the single global `struct mbox` becomes an
explicit `Mbox` record threaded through every operation, register I/O becomes
an update of an offset-indexed byte map plus an event trace, and fallible
operations return `Except`.  The BMC-side register window itself is an
external collaborator (the LPC bus); its write-one-to-clear semantics for the
status-carrying registers is taken from the documented register behaviour,
and everything the driver does is translated line by line from the C source.
-/

namespace LpcMbox

/-- Register offsets and bit masks, from the `#define`s in `lpc-mbox.c`. -/
def MBOX_FLAG_REG : Nat := 0x0f

def MBOX_STATUS_0 : Nat := 0x10

def MBOX_STATUS_ATTN : Nat := 128

def MBOX_STATUS_1 : Nat := 0x11

def MBOX_BMC_CTRL : Nat := 0x12

def MBOX_CTRL_INT_STATUS : Nat := 128

def MBOX_CTRL_INT_MASK : Nat := 2

def MBOX_CTRL_INT_SEND : Nat := 1

def MBOX_HOST_CTRL : Nat := 0x13

def MBOX_BMC_INT_EN_0 : Nat := 0x14

def MBOX_BMC_INT_EN_1 : Nat := 0x15

def MBOX_HOST_INT_EN_0 : Nat := 0x16

def MBOX_HOST_INT_EN_1 : Nat := 0x17

def BMC_RESET : Nat := 1

def BMC_COMPLETE : Nat := 2

/-- The cadence passed to `schedule_timer`: `TIMER_POLL` when `irq_ok`,
else `msecs_to_tb(MBOX_DEFAULT_POLL_MS)`. -/
inductive Cadence where
  | timerPoll
  | defaultPollMs
  deriving DecidableEq, Repr

/-- Observable actions of the driver: register I/O, callback upcalls, log
lines, timer scheduling and interrupt-client registration. -/
inductive Event where
  | readReg (off val : Nat)
  | writeReg (off val : Nat)
  | callbackInvoked (msg : List Nat) (ctx : Nat)
  | logNullCallback
  | logNoMessage
  | logBmcReset
  | logUnknownAction (a : Nat)
  | logLpcNotOk
  | schedule (c : Cadence)
  | registerIrqClient (chipId irq : Nat)
  deriving DecidableEq, Repr

/-- Synchronous failures of `bmc_mbox_enqueue`: `OPAL_WRONG_STATE` when the
driver is not initialised, `OPAL_BUSY` when a message is already in flight. -/
inductive MboxError where
  | notInitialized
  | busy
  deriving DecidableEq, Repr

/-- The exit path taken by `mbox_init` (the C function returns `void` and
reports each abort through a log line; this type names the path). -/
inductive InitResult where
  | alreadyInitialized
  | noDeviceTreeEntry
  | noInterruptsProp
  | lpcNotPresent
  | noRegProp
  | notIOAddress
  | ok
  deriving DecidableEq, Repr

/-- The global `struct mbox` from `lpc-mbox.c`, together with the register
window it talks to (`regs`, indexed by byte offset from `base`) and the
health bit the external `lpc_ok()` collaborator reports.  A message
(`struct bmc_mbox_msg`, accessed in the C only as a raw byte array) is a
list of bytes; the registered callback function pointer and its `drv_data`
pointer are opaque identifiers. -/
structure Mbox where
  base : Nat
  queue_len : Nat
  irq_ok : Bool
  seq : Nat
  callback : Option Nat
  drv_data : Nat
  in_flight : Option (List Nat)
  regs : Nat → Nat
  lpcOk : Bool

/-- Write-one-to-clear: writing `v` clears exactly the bits set in `v`
(the register holds a byte, so the mask is taken in 8 bits). -/
def w1c (old v : Nat) : Nat := old &&& (255 ^^^ v)

/-- Offsets whose bits are write-one-to-clear.  The source comments mark
both `MBOX_HOST_CTRL` and `MBOX_STATUS_1` as "W1C on that reg", and the
documented register behaviour gives all status-type bits those semantics. -/
def isW1C (off : Nat) : Bool :=
  off = MBOX_STATUS_0 || off = MBOX_STATUS_1 || off = MBOX_HOST_CTRL

/-- Effect of a register write on the window: plain store, except the
status-carrying registers which are write-one-to-clear. -/
def regStore (regs : Nat → Nat) (off v : Nat) : Nat → Nat :=
  fun o => if o = off then (if isW1C off then w1c (regs off) v else v) else regs o

/-- Source `bmc_mbox_outb(val, reg)`: one register write (plus its trace event). -/
def bmc_mbox_outb (s : Mbox) (v reg : Nat) : Mbox × List Event :=
  ({ s with regs := regStore s.regs reg v }, [.writeReg reg v])

/-- Source `bmc_mbox_inb(reg)`: one register read (plus its trace event). -/
def bmc_mbox_inb (s : Mbox) (reg : Nat) : Nat × List Event :=
  (s.regs reg, [.readReg reg (s.regs reg)])

/-- Source `bmc_mbox_recv_message`: read data registers `0 .. n-1` into the
message, byte `i` from register `i` (`n` is `BMC_MBOX_DATA_REGS`). -/
def bmc_mbox_recv_message (s : Mbox) (n : Nat) : List Nat × List Event :=
  ((List.range n).map s.regs, (List.range n).map (fun i => .readReg i (s.regs i)))

/-- The data-register write loop of `bmc_mbox_send_message`: byte `i` of the
message goes to register `i`, starting at offset `i0`. -/
def writeData (s : Mbox) : List Nat → Nat → Mbox × List Event
  | [], _ => (s, [])
  | b :: rest, i =>
    let p1 := bmc_mbox_outb s b i
    let p2 := writeData p1.1 rest (i + 1)
    (p2.1, p1.2 ++ p2.2)

/-- Source `bmc_mbox_send_message`: warn if the LPC bus is unhealthy (but still
attempt the write), write the message bytes into the data registers, then
ring the doorbell by writing `MBOX_CTRL_INT_SEND` to `MBOX_HOST_CTRL`. -/
def bmc_mbox_send_message (s : Mbox) (msg : List Nat) : Mbox × List Event :=
  let e0 : List Event := if s.lpcOk then [] else [.logLpcNotOk]
  let p1 := writeData s msg 0
  let p2 := bmc_mbox_outb p1.1 MBOX_CTRL_INT_SEND MBOX_HOST_CTRL
  (p2.1, e0 ++ p1.2 ++ p2.2)

/-- The cadence `schedule_timer` is armed with. -/
def pollCadence (irqOk : Bool) : Cadence :=
  if irqOk then .timerPoll else .defaultPollMs

/-- Source `bmc_mbox_enqueue`: fail `OPAL_WRONG_STATE` if `base` is unset; under
the lock fail `OPAL_BUSY` if a message is in flight, otherwise record the
message as in flight; send it; re-arm the poller. -/
def bmc_mbox_enqueue (s : Mbox) (msg : List Nat) :
    Mbox × Except MboxError Unit × List Event :=
  if s.base = 0 then
    (s, .error .notInitialized, [])
  else
    match s.in_flight with
    | some _ => (s, .error .busy, [])
    | none =>
      let s1 := { s with in_flight := some msg }
      let p := bmc_mbox_send_message s1 msg
      (p.1, .ok (), p.2 ++ [.schedule (pollCadence s.irq_ok)])

/-- The attention half of `mbox_poll`: if `MBOX_STATUS_ATTN` is set in
`MBOX_STATUS_1`, clear it (W1C), read the flag register, log-and-strip a
`BMC_RESET` flag, and log any remaining unknown action bits. -/
def mbox_attention (s : Mbox) : Mbox × List Event :=
  let st := bmc_mbox_inb s MBOX_STATUS_1
  if st.1 &&& MBOX_STATUS_ATTN ≠ 0 then
    let p1 := bmc_mbox_outb s MBOX_STATUS_ATTN MBOX_STATUS_1
    let rd := bmc_mbox_inb p1.1 MBOX_FLAG_REG
    let action := rd.1
    let stripped :=
      if action &&& BMC_RESET ≠ 0 then (action &&& (255 ^^^ BMC_RESET), [Event.logBmcReset])
      else (action, ([] : List Event))
    let e4 : List Event := if stripped.1 ≠ 0 then [.logUnknownAction stripped.1] else []
    (p1.1, st.2 ++ p1.2 ++ rd.2 ++ stripped.2 ++ e4)
  else
    (s, st.2)

/-- Source `mbox_poll`: the Completion Detector.  Response check first: if
`MBOX_CTRL_INT_STATUS` is set in `MBOX_HOST_CTRL`, clear it and — if a
message is in flight — decode the registers into it, invoke the callback
(or log its absence) and empty the in-flight slot; if no message is in
flight, log and `return` at once.  Then the attention check, then
`schedule_timer` on the current cadence.  `n` is `BMC_MBOX_DATA_REGS`. -/
def mbox_poll (s : Mbox) (n : Nat) : Mbox × List Event :=
  let hc := bmc_mbox_inb s MBOX_HOST_CTRL
  if hc.1 &&& MBOX_CTRL_INT_STATUS ≠ 0 then
    let p1 := bmc_mbox_outb s MBOX_CTRL_INT_STATUS MBOX_HOST_CTRL
    match p1.1.in_flight with
    | none =>
      -- "Couldn't find the message!!": the C returns here, skipping both
      -- the attention check and the re-arm.
      (p1.1, hc.2 ++ p1.2 ++ [.logNoMessage])
    | some _ =>
      let rd := bmc_mbox_recv_message p1.1 n
      let cbEvs : List Event :=
        match p1.1.callback with
        | some _ => [.callbackInvoked rd.1 p1.1.drv_data]
        | none => [.logNullCallback]
      let s2 := { p1.1 with in_flight := none }
      let p3 := mbox_attention s2
      (p3.1, hc.2 ++ p1.2 ++ rd.2 ++ cbEvs ++ p3.2 ++
        [.schedule (pollCadence p3.1.irq_ok)])
  else
    let p3 := mbox_attention s
    (p3.1, hc.2 ++ p3.2 ++ [.schedule (pollCadence p3.1.irq_ok)])

/-- Source `mbox_irq`: the LPC interrupt upcall — record that interrupts work and
run one detector pass immediately. -/
def mbox_irq (s : Mbox) (n : Nat) : Mbox × List Event :=
  mbox_poll { s with irq_ok := true } n

/-- Source `bmc_mbox_register_callback`: unconditionally store the callback and its
context and return 0. -/
def bmc_mbox_register_callback (s : Mbox) (cb : Option Nat) (ctx : Nat) :
    Mbox × Int :=
  ({ s with callback := cb, drv_data := ctx }, 0)

/-- Source `mbox_init_hw`: mask all host status interrupts except attention, clear
stale host interrupt status, mask the BMC-side interrupt.  Always succeeds. -/
def mbox_init_hw (s : Mbox) : Mbox × Bool × List Event :=
  let p1 := bmc_mbox_outb s 0x00 MBOX_HOST_INT_EN_0
  let p2 := bmc_mbox_outb p1.1 MBOX_STATUS_ATTN MBOX_HOST_INT_EN_1
  let p3 := bmc_mbox_outb p2.1 MBOX_CTRL_INT_STATUS MBOX_HOST_CTRL
  let p4 := bmc_mbox_outb p3.1 MBOX_CTRL_INT_MASK MBOX_BMC_CTRL
  (p4.1, true, p1.2 ++ p2.2 ++ p3.2 ++ p4.2)

/-- The platform configuration `mbox_init` discovers through the device
tree and the LPC layer (external collaborators). -/
structure DtConfig where
  hasNode : Bool
  irq : Nat
  lpcPresent : Bool
  hasRegProp : Bool
  regCell0IsIoSpace : Bool
  regBase : Nat
  chipId : Nat

/-- Modelled from the spec: the timer subsystem's `init_timer` (in
`timer.c`, which is not under `src/`) is what makes the poller runnable;
the specification states that initialization "arms the first Completion
Detector pass on the default poll cadence", so registering `mbox_poll`
as the poller body also schedules its first run on that cadence. -/
def init_timer_events : List Event := [.schedule .defaultPollMs]

/-- Source `mbox_init`: refuse a duplicate call; walk the discovery steps, aborting
(with only a log line) when one fails; then record the base, set up the
hardware, reset the driver state, register the poller timer and the LPC
interrupt client. -/
def mbox_init (s : Mbox) (cfg : DtConfig) : Mbox × InitResult × List Event :=
  if s.base ≠ 0 then (s, .alreadyInitialized, [])
  else if ¬cfg.hasNode then (s, .noDeviceTreeEntry, [])
  else if cfg.irq = 0 then (s, .noInterruptsProp, [])
  else if ¬cfg.lpcPresent then (s, .lpcNotPresent, [])
  else if ¬cfg.hasRegProp then (s, .noRegProp, [])
  else if ¬cfg.regCell0IsIoSpace then (s, .notIOAddress, [])
  else
    let s1 := { s with base := cfg.regBase }
    let p2 := mbox_init_hw s1
    let s3 := { p2.1 with queue_len := 0, in_flight := none,
                          callback := none, drv_data := 0 }
    (s3, .ok, p2.2.2 ++ init_timer_events ++
      [.registerIrqClient cfg.chipId cfg.irq])

/-- The operations reachable on the driver, for whole-trace invariants. -/
inductive Op where
  | enqueue (msg : List Nat)
  | poll
  | irq
  | registerCb (cb : Option Nat) (ctx : Nat)
  | init (cfg : DtConfig)

/-- One operation's effect on the driver state (`n` is
`BMC_MBOX_DATA_REGS`). -/
def step (n : Nat) (s : Mbox) : Op → Mbox
  | .enqueue msg => (bmc_mbox_enqueue s msg).1
  | .poll => (mbox_poll s n).1
  | .irq => (mbox_irq s n).1
  | .registerCb cb ctx => (bmc_mbox_register_callback s cb ctx).1
  | .init cfg => (mbox_init s cfg).1

/-- The callback upcalls contained in a trace, in order. -/
def callbackEvents (evs : List Event) : List (List Nat × Nat) :=
  evs.filterMap fun e =>
    match e with
    | .callbackInvoked m c => some (m, c)
    | _ => none

/-- The `schedule_timer` cadences contained in a trace, in order. -/
def schedules (evs : List Event) : List Cadence :=
  evs.filterMap fun e =>
    match e with
    | .schedule c => some c
    | _ => none

/-! ### Concrete states used to exercise the theorems -/

/-- An all-zero register window. -/
def regsZero : Nat → Nat := fun _ => 0

/-- The driver before `mbox_init` has run: `base` unset. -/
def mboxUninit : Mbox :=
  { base := 0, queue_len := 0, irq_ok := false, seq := 0, callback := none,
    drv_data := 0, in_flight := none, regs := regsZero, lpcOk := true }

/-- An initialised, idle driver with a callback registered. -/
def mboxIdle : Mbox :=
  { base := 0x1000, queue_len := 0, irq_ok := false, seq := 0,
    callback := some 1, drv_data := 7, in_flight := none, regs := regsZero,
    lpcOk := true }

/-- An initialised driver with message `[9, 9, 9, 9, 9, 9, 9, 9]` in flight. -/
def mboxBusy : Mbox :=
  { mboxIdle with in_flight := some [9, 9, 9, 9, 9, 9, 9, 9] }

/-! ### Register-model lemmas -/

theorem regStore_ne (regs : Nat → Nat) (off v o : Nat) (h : o ≠ off) :
    regStore regs off v o = regs o := by
  simp [regStore, h]

theorem regStore_self (regs : Nat → Nat) (off v : Nat) :
    regStore regs off v off =
      (if isW1C off then w1c (regs off) v else v) := by
  simp [regStore]

theorem w1c_clear_128 (x : Nat) : w1c x 128 &&& 128 = 0 := by
  have h : (255 : Nat) ^^^ 128 = 127 := by decide
  have h2 : (127 : Nat) &&& 128 = 0 := by decide
  simp [w1c, h, Nat.land_assoc, h2]

/-! ### Claim theorems -/

/-- C1: while a message is in flight, `bmc_mbox_enqueue` returns `Busy` and
leaves the whole state — in particular the in-flight slot, which still holds
the original message — unchanged and performs no I/O: the new message is
never queued or overwritten into the slot. -/
theorem enqueue_busy_rejected (s : Mbox) (msg m0 : List Nat)
    (hbase : s.base ≠ 0) (hf : s.in_flight = some m0) :
    bmc_mbox_enqueue s msg = (s, .error .busy, []) ∧
      (bmc_mbox_enqueue s msg).1.in_flight = some m0 := by
  constructor
  · simp [bmc_mbox_enqueue, hbase, hf]
  · simp [bmc_mbox_enqueue, hbase, hf]

/-- Witness for C1: a concrete busy driver rejects a second message. -/
theorem enqueue_busy_rejected_witness :
    bmc_mbox_enqueue mboxBusy [1, 2, 3, 4, 5, 6, 7, 8] =
        (mboxBusy, .error .busy, []) ∧
      (bmc_mbox_enqueue mboxBusy [1, 2, 3, 4, 5, 6, 7, 8]).1.in_flight =
        some [9, 9, 9, 9, 9, 9, 9, 9] :=
  enqueue_busy_rejected mboxBusy [1, 2, 3, 4, 5, 6, 7, 8]
    [9, 9, 9, 9, 9, 9, 9, 9] (by decide) rfl

/-- C5: with `base` unset, `bmc_mbox_enqueue` fails with the
not-initialised error, changes no state and performs no register access
(the event trace is empty). -/
theorem enqueue_before_init (s : Mbox) (msg : List Nat) (h : s.base = 0) :
    bmc_mbox_enqueue s msg = (s, .error .notInitialized, []) := by
  simp [bmc_mbox_enqueue, h]

/-- Witness for C5: the uninitialised driver rejects an enqueue. -/
theorem enqueue_before_init_witness :
    bmc_mbox_enqueue mboxUninit [1, 2, 3, 4, 5, 6, 7, 8] =
      (mboxUninit, .error .notInitialized, []) :=
  enqueue_before_init mboxUninit [1, 2, 3, 4, 5, 6, 7, 8] rfl

/-- C9: a second `mbox_init` call (base already set) takes the
duplicate-call exit, performs no hardware writes (empty trace) and leaves
the state unchanged. -/
theorem init_duplicate_rejected (s : Mbox) (cfg : DtConfig)
    (h : s.base ≠ 0) :
    mbox_init s cfg = (s, .alreadyInitialized, []) := by
  simp [mbox_init, h]

/-- Witness for C9: re-initialising a live driver is refused. -/
theorem init_duplicate_rejected_witness :
    mbox_init mboxIdle
        { hasNode := true, irq := 5, lpcPresent := true, hasRegProp := true,
          regCell0IsIoSpace := true, regBase := 0x1000, chipId := 0 } =
      (mboxIdle, .alreadyInitialized, []) :=
  init_duplicate_rejected mboxIdle _ (by decide)

/-- C10: `bmc_mbox_register_callback` always returns 0 — for every state
(initialised or not) and every argument pair, a `NULL` callback included —
and overwrites the previously registered callback and context while leaving
every other field alone. -/
theorem register_callback_total (s : Mbox) (cb : Option Nat) (ctx : Nat) :
    (bmc_mbox_register_callback s cb ctx).2 = 0 ∧
      (bmc_mbox_register_callback s cb ctx).1.callback = cb ∧
      (bmc_mbox_register_callback s cb ctx).1.drv_data = ctx ∧
      (bmc_mbox_register_callback s cb ctx).1.base = s.base ∧
      (bmc_mbox_register_callback s cb ctx).1.in_flight = s.in_flight ∧
      (bmc_mbox_register_callback s cb ctx).1.irq_ok = s.irq_ok ∧
      (bmc_mbox_register_callback s cb ctx).1.regs = s.regs := by
  simp [bmc_mbox_register_callback]

/-! ### Data-register write-loop lemmas (for the codec round trip) -/

theorem writeData_regs_lt (msg : List Nat) (s : Mbox) (i0 o : Nat)
    (h : o < i0) : (writeData s msg i0).1.regs o = s.regs o := by
  induction msg generalizing s i0 with
  | nil => rfl
  | cons b rest ih =>
    show (writeData (bmc_mbox_outb s b i0).1 rest (i0 + 1)).1.regs o = s.regs o
    rw [ih _ (i0 + 1) (by omega)]
    exact regStore_ne _ _ _ _ (by omega)

theorem writeData_regs_ge (msg : List Nat) (s : Mbox) (i0 o : Nat)
    (h : i0 + msg.length ≤ o) : (writeData s msg i0).1.regs o = s.regs o := by
  induction msg generalizing s i0 with
  | nil => rfl
  | cons b rest ih =>
    show (writeData (bmc_mbox_outb s b i0).1 rest (i0 + 1)).1.regs o = s.regs o
    rw [ih _ (i0 + 1) (by simp at h; omega)]
    exact regStore_ne _ _ _ _ (by simp at h; omega)

theorem writeData_regs_get (msg : List Nat) (s : Mbox) (i0 k : Nat)
    (hk : k < msg.length) (hW : isW1C (i0 + k) = false) :
    (writeData s msg i0).1.regs (i0 + k) = msg.get ⟨k, hk⟩ := by
  induction msg generalizing s i0 k with
  | nil => exact absurd hk (by simp)
  | cons b rest ih =>
    show (writeData (bmc_mbox_outb s b i0).1 rest (i0 + 1)).1.regs (i0 + k) = _
    cases k with
    | zero =>
      rw [writeData_regs_lt rest _ (i0 + 1) _ (by omega)]
      show regStore s.regs i0 b (i0 + 0) = b
      simp only [Nat.add_zero, regStore_self]
      simp at hW
      simp [hW]
    | succ k' =>
      have hk' : k' < rest.length := by simp at hk; omega
      have harith : i0 + (k' + 1) = (i0 + 1) + k' := by omega
      rw [harith, ih _ (i0 + 1) k' hk' (by rw [← harith]; exact hW)]
      rfl

theorem isW1C_small (o : Nat) (h : o < 15) : isW1C o = false := by
  simp only [isW1C, MBOX_STATUS_0, MBOX_STATUS_1, MBOX_HOST_CTRL,
    Bool.or_eq_false_iff, decide_eq_false_iff_not]
  omega

/-- C6: the codec round-trips.  Writing a message of exactly
`BMC_MBOX_DATA_REGS` bytes into the data registers (`bmc_mbox_send_message`:
byte `i` to register `i`) and reading the registers back
(`bmc_mbox_recv_message`: register `i` to byte `i`) yields the original
message.  The width `n` is any value compatible with the register map (the
data registers sit below `MBOX_FLAG_REG = 0x0f`, so `n ≤ 15`). -/
theorem codec_round_trip (s : Mbox) (msg : List Nat) (n : Nat)
    (hlen : msg.length = n) (hn : n ≤ 15) :
    (bmc_mbox_recv_message (bmc_mbox_send_message s msg).1 n).1 = msg := by
  apply List.ext_getElem
  · simp [bmc_mbox_recv_message, hlen]
  · intro i h1 h2
    simp only [bmc_mbox_recv_message, List.getElem_map, List.getElem_range]
    simp only [List.length_map, List.length_range] at h1
    show (bmc_mbox_send_message s msg).1.regs i = msg[i]
    have hi15 : i < 15 := by omega
    simp only [bmc_mbox_send_message, bmc_mbox_outb]
    rw [regStore_ne _ _ _ _ (by simp only [MBOX_HOST_CTRL]; omega)]
    have := writeData_regs_get msg s 0 i (by omega) (by
      simpa using isW1C_small i hi15)
    simpa using this

/-- Witness for C6: a concrete 8-byte message survives the round trip. -/
theorem codec_round_trip_witness :
    (bmc_mbox_recv_message
        (bmc_mbox_send_message mboxIdle [1, 2, 3, 4, 5, 6, 7, 8]).1 8).1 =
      [1, 2, 3, 4, 5, 6, 7, 8] :=
  codec_round_trip mboxIdle [1, 2, 3, 4, 5, 6, 7, 8] 8 rfl (by decide)

/-! ### Detector lemmas -/

theorem mbox_attention_in_flight (s : Mbox) :
    (mbox_attention s).1.in_flight = s.in_flight := by
  simp only [mbox_attention, bmc_mbox_inb, bmc_mbox_outb]
  split <;> rfl

theorem mbox_attention_irq_ok (s : Mbox) :
    (mbox_attention s).1.irq_ok = s.irq_ok := by
  simp only [mbox_attention, bmc_mbox_inb, bmc_mbox_outb]
  split <;> rfl

theorem mbox_attention_regs_ne (s : Mbox) (o : Nat) (h : o ≠ MBOX_STATUS_1) :
    (mbox_attention s).1.regs o = s.regs o := by
  simp only [mbox_attention, bmc_mbox_inb, bmc_mbox_outb]
  split
  · exact regStore_ne _ _ _ _ h
  · rfl

theorem mbox_attention_clears (s : Mbox)
    (h : s.regs MBOX_STATUS_1 &&& MBOX_STATUS_ATTN ≠ 0) :
    (mbox_attention s).1.regs MBOX_STATUS_1 &&& MBOX_STATUS_ATTN = 0 := by
  simp only [mbox_attention, bmc_mbox_inb, bmc_mbox_outb, if_pos h]
  rw [regStore_self]
  have hw : isW1C MBOX_STATUS_1 = true := by decide
  rw [if_pos hw]
  simp only [MBOX_STATUS_ATTN]
  exact w1c_clear_128 _

theorem schedules_append (a b : List Event) :
    schedules (a ++ b) = schedules a ++ schedules b := by
  simp [schedules]

theorem callbackEvents_append (a b : List Event) :
    callbackEvents (a ++ b) = callbackEvents a ++ callbackEvents b := by
  simp [callbackEvents]

theorem schedules_attention (s : Mbox) : schedules (mbox_attention s).2 = [] := by
  simp only [mbox_attention, bmc_mbox_inb, bmc_mbox_outb]
  split
  · simp only [schedules]
    split <;> split <;> simp

  · rfl

theorem callbackEvents_attention (s : Mbox) :
    callbackEvents (mbox_attention s).2 = [] := by
  simp only [mbox_attention, bmc_mbox_inb, bmc_mbox_outb]
  split
  · simp only [callbackEvents]
    split <;> split <;> simp

  · rfl

theorem schedules_reads (n : Nat) (f : Nat → Nat) :
    schedules ((List.range n).map fun i => Event.readReg i (f i)) = [] := by
  simp [schedules, List.filterMap_map]

theorem callbackEvents_reads (n : Nat) (f : Nat → Nat) :
    callbackEvents ((List.range n).map fun i => Event.readReg i (f i)) = [] := by
  simp [callbackEvents, List.filterMap_map]

/-- A register window with both the response bit (`MBOX_CTRL_INT_STATUS` in
`MBOX_HOST_CTRL`) and the attention bit (`MBOX_STATUS_ATTN` in
`MBOX_STATUS_1`) set. -/
def regsRespAttn : Nat → Nat := fun o =>
  if o = MBOX_HOST_CTRL then 128 else if o = MBOX_STATUS_1 then 128 else 0

/-- An idle driver (nothing in flight) observing `regsRespAttn`: the
response bit is set with no in-flight message, and attention is pending. -/
def mboxStuckAttn : Mbox := { mboxIdle with regs := regsRespAttn }

/-- The same configuration, for the re-arm claim. -/
def mboxStuckRearm : Mbox := { mboxIdle with regs := regsRespAttn }

/-- Counterexample to C2 as stated: with the response bit set, no message in
flight and the attention bit set, a detector pass leaves the attention bit
set — the early `return` in `mbox_poll` skips the attention check, so the
two checks are not unconditional. -/
theorem detector_attention_skipped_cex :
    mboxStuckAttn.regs MBOX_STATUS_1 &&& MBOX_STATUS_ATTN ≠ 0 ∧
      mboxStuckAttn.in_flight = none ∧
      (mbox_poll mboxStuckAttn 8).1.regs MBOX_STATUS_1 &&& MBOX_STATUS_ATTN ≠ 0 := by
  refine ⟨by decide, rfl, by decide⟩

/-- C2 (amended): a single detector pass services the attention bit
whenever it is set, except when the response bit is simultaneously set with
no message in flight — on that path the detector returns early and the
attention bit is left pending. -/
theorem detector_attention_serviced (s : Mbox) (n : Nat)
    (hno : ¬(s.regs MBOX_HOST_CTRL &&& MBOX_CTRL_INT_STATUS ≠ 0 ∧
              s.in_flight = none))
    (hattn : s.regs MBOX_STATUS_1 &&& MBOX_STATUS_ATTN ≠ 0) :
    (mbox_poll s n).1.regs MBOX_STATUS_1 &&& MBOX_STATUS_ATTN = 0 := by
  simp only [mbox_poll, bmc_mbox_inb, bmc_mbox_outb]
  by_cases hresp : s.regs MBOX_HOST_CTRL &&& MBOX_CTRL_INT_STATUS ≠ 0
  · rw [if_pos hresp]
    match hflight : s.in_flight with
    | none => exact absurd ⟨hresp, hflight⟩ hno
    | some m =>
      simp only [hflight]
      apply mbox_attention_clears
      show regStore s.regs MBOX_HOST_CTRL MBOX_CTRL_INT_STATUS MBOX_STATUS_1
            &&& MBOX_STATUS_ATTN ≠ 0
      rw [regStore_ne _ _ _ _ (by decide)]
      exact hattn
  · rw [if_neg hresp]
    exact mbox_attention_clears s hattn

/-- Witness for C2 (amended): attention pending, response bit clear — one
pass clears the attention bit. -/
theorem detector_attention_serviced_witness :
    (mbox_poll { mboxIdle with
        regs := fun o => if o = MBOX_STATUS_1 then 128 else 0 } 8).1.regs
      MBOX_STATUS_1 &&& MBOX_STATUS_ATTN = 0 :=
  detector_attention_serviced _ 8 (by decide) (by decide)

/-- Counterexample to C3 as stated: with the response bit set and no
message in flight, the detector pass schedules nothing — the early `return`
in `mbox_poll` aborts the re-arm. -/
theorem detector_rearm_skipped_cex :
    mboxStuckRearm.regs MBOX_HOST_CTRL &&& MBOX_CTRL_INT_STATUS ≠ 0 ∧
      mboxStuckRearm.in_flight = none ∧
      schedules (mbox_poll mboxStuckRearm 8).2 = [] := by
  refine ⟨by decide, rfl, by decide⟩

/-- C3 (amended): every detector pass ends by scheduling exactly one
further run — on `TIMER_POLL` if interrupts are confirmed, else on the
default poll interval — except the protocol-violation path (response bit
set with nothing in flight), which returns without re-arming. -/
theorem detector_rearm (s : Mbox) (n : Nat)
    (hno : ¬(s.regs MBOX_HOST_CTRL &&& MBOX_CTRL_INT_STATUS ≠ 0 ∧
              s.in_flight = none)) :
    schedules (mbox_poll s n).2 = [pollCadence s.irq_ok] := by
  simp only [mbox_poll, bmc_mbox_inb, bmc_mbox_outb, bmc_mbox_recv_message]
  by_cases hresp : s.regs MBOX_HOST_CTRL &&& MBOX_CTRL_INT_STATUS ≠ 0
  · rw [if_pos hresp]
    match hflight : s.in_flight with
    | none => exact absurd ⟨hresp, hflight⟩ hno
    | some m =>
      simp only [hflight, schedules_append, schedules_reads,
        schedules_attention, mbox_attention_irq_ok]
      cases hcb : s.callback <;> simp [hcb, schedules]
  · rw [if_neg hresp]
    simp only [schedules_append, schedules_attention, mbox_attention_irq_ok]
    simp [schedules]

/-- Witness for C3 (amended): an idle polling-mode driver's detector pass
re-arms on the default poll interval. -/
theorem detector_rearm_witness :
    schedules (mbox_poll mboxIdle 8).2 = [Cadence.defaultPollMs] :=
  detector_rearm mboxIdle 8 (by decide)

theorem map_range_regStore (f : Nat → Nat) (off v n : Nat) (h : n ≤ off) :
    (List.range n).map (regStore f off v) = (List.range n).map f := by
  apply List.map_congr_left
  intro i hi
  rw [List.mem_range] at hi
  exact regStore_ne _ _ _ _ (by omega)

theorem mbox_poll_quiet (s : Mbox) (n : Nat)
    (h : s.regs MBOX_HOST_CTRL &&& MBOX_CTRL_INT_STATUS = 0) :
    callbackEvents (mbox_poll s n).2 = [] := by
  simp only [mbox_poll, bmc_mbox_inb]
  rw [if_neg (by simp [h])]
  simp only [callbackEvents_append, callbackEvents_attention]
  simp [callbackEvents]

/-- C4: with the response bit set and a message in flight, one detector
pass clears the bit, decodes the data registers, invokes the registered
callback exactly once with that decoded message and the registered
context, and empties the in-flight slot; a second pass (the bit now clear)
invokes no callback. -/
theorem detector_response_completes (s : Mbox) (n : Nat) (m : List Nat)
    (cb : Nat)
    (hresp : s.regs MBOX_HOST_CTRL &&& MBOX_CTRL_INT_STATUS ≠ 0)
    (hf : s.in_flight = some m) (hcb : s.callback = some cb) (hn : n ≤ 15) :
    callbackEvents (mbox_poll s n).2 =
        [((List.range n).map s.regs, s.drv_data)] ∧
      (mbox_poll s n).1.in_flight = none ∧
      (mbox_poll s n).1.regs MBOX_HOST_CTRL &&& MBOX_CTRL_INT_STATUS = 0 ∧
      callbackEvents (mbox_poll (mbox_poll s n).1 n).2 = [] := by
  have hbit : (mbox_poll s n).1.regs MBOX_HOST_CTRL &&& MBOX_CTRL_INT_STATUS
      = 0 := by
    simp only [mbox_poll, bmc_mbox_inb, bmc_mbox_outb, if_pos hresp]
    simp only [hf]
    rw [mbox_attention_regs_ne _ _ (by decide)]
    show regStore s.regs MBOX_HOST_CTRL MBOX_CTRL_INT_STATUS MBOX_HOST_CTRL
        &&& MBOX_CTRL_INT_STATUS = 0
    rw [regStore_self]
    have hw : isW1C MBOX_HOST_CTRL = true := by decide
    rw [if_pos hw]
    simp only [MBOX_CTRL_INT_STATUS]
    exact w1c_clear_128 _
  refine ⟨?_, ?_, hbit, mbox_poll_quiet _ n hbit⟩
  · simp only [mbox_poll, bmc_mbox_inb, bmc_mbox_outb, bmc_mbox_recv_message,
      if_pos hresp]
    simp only [hf, hcb, callbackEvents_append, callbackEvents_reads,
      callbackEvents_attention]
    rw [map_range_regStore _ _ _ _ (by simp only [MBOX_HOST_CTRL]; omega)]
    simp [callbackEvents]
  · simp only [mbox_poll, bmc_mbox_inb, bmc_mbox_outb, if_pos hresp]
    simp only [hf]
    rw [mbox_attention_in_flight]

/-- An initialised driver awaiting a response; the BMC has raised the
response bit and the data registers hold the reply bytes `1 .. 8`. -/
def regsReply : Nat → Nat := fun o =>
  if o = MBOX_HOST_CTRL then 128 else if o < 8 then o + 1 else 0

def mboxAwaiting : Mbox :=
  { mboxIdle with
    in_flight := some [0, 0, 0, 0, 0, 0, 0, 1]
    regs := regsReply }

/-- Witness for C4: the concrete reply `[1, …, 8]` is delivered exactly
once to callback 1 with context 7, the slot empties, and a second pass is
silent. -/
theorem detector_response_completes_witness :
    callbackEvents (mbox_poll mboxAwaiting 8).2 =
        [([1, 2, 3, 4, 5, 6, 7, 8], 7)] ∧
      (mbox_poll mboxAwaiting 8).1.in_flight = none ∧
      (mbox_poll mboxAwaiting 8).1.regs MBOX_HOST_CTRL &&&
          MBOX_CTRL_INT_STATUS = 0 ∧
      callbackEvents (mbox_poll (mbox_poll mboxAwaiting 8).1 8).2 = [] := by
  have h := detector_response_completes mboxAwaiting 8
    [0, 0, 0, 0, 0, 0, 0, 1] 1 (by decide) rfl rfl (by decide)
  exact ⟨by rw [h.1]; decide, h.2.1, h.2.2.1, h.2.2.2⟩

/-! ### `irq_ok` preservation (the delivery mode never reverts) -/

theorem writeData_irq_ok (msg : List Nat) (s : Mbox) (i : Nat) :
    (writeData s msg i).1.irq_ok = s.irq_ok := by
  induction msg generalizing s i with
  | nil => rfl
  | cons b rest ih => exact ih _ _

theorem send_irq_ok (s : Mbox) (msg : List Nat) :
    (bmc_mbox_send_message s msg).1.irq_ok = s.irq_ok := by
  simp only [bmc_mbox_send_message, bmc_mbox_outb]
  exact writeData_irq_ok msg s 0

theorem enqueue_irq_ok (s : Mbox) (msg : List Nat) :
    (bmc_mbox_enqueue s msg).1.irq_ok = s.irq_ok := by
  simp only [bmc_mbox_enqueue]
  split
  · rfl
  · split
    · rfl
    · exact send_irq_ok _ msg

theorem poll_irq_ok (s : Mbox) (n : Nat) :
    (mbox_poll s n).1.irq_ok = s.irq_ok := by
  simp only [mbox_poll, bmc_mbox_inb, bmc_mbox_outb]
  split
  · split
    · rfl
    · rw [mbox_attention_irq_ok]
  · rw [mbox_attention_irq_ok]

theorem init_irq_ok (s : Mbox) (cfg : DtConfig) :
    (mbox_init s cfg).1.irq_ok = s.irq_ok := by
  unfold mbox_init
  repeat' split
  all_goals rfl

theorem step_irq_ok_mono (n : Nat) (s : Mbox) (op : Op)
    (h : s.irq_ok = true) : (step n s op).irq_ok = true := by
  cases op with
  | enqueue msg => rw [step, enqueue_irq_ok]; exact h
  | poll => rw [step, poll_irq_ok]; exact h
  | irq => rw [step, mbox_irq, poll_irq_ok]
  | registerCb cb ctx => exact h
  | init cfg => rw [step, init_irq_ok]; exact h

/-- C7: the first interrupt notification confirms interrupt delivery
(`irq_ok` becomes true from any state), and once confirmed no reachable
operation — enqueue, detector pass, further interrupts, callback
registration or (re-)initialisation — ever reverts it to polling. -/
theorem irq_confirm_one_way (n : Nat) (s : Mbox) (ops : List Op) :
    (step n s Op.irq).irq_ok = true ∧
      (s.irq_ok = true → (List.foldl (step n) s ops).irq_ok = true) := by
  constructor
  · rw [step, mbox_irq, poll_irq_ok]
  · induction ops generalizing s with
    | nil => intro h; exact h
    | cons op rest ih => intro h; exact ih _ (step_irq_ok_mono n s op h)

/-- A driver that has already observed an interrupt. -/
def mboxConfirmed : Mbox := { mboxIdle with irq_ok := true }

/-- Witness for C7: after confirmation, a poll, an enqueue and another
interrupt leave the mode confirmed. -/
theorem irq_confirm_one_way_witness :
    (step 8 mboxConfirmed Op.irq).irq_ok = true ∧
      (List.foldl (step 8) mboxConfirmed
        [Op.poll, Op.enqueue [1, 2, 3, 4, 5, 6, 7, 8], Op.irq]).irq_ok
      = true :=
  ⟨(irq_confirm_one_way 8 mboxConfirmed
      [Op.poll, Op.enqueue [1, 2, 3, 4, 5, 6, 7, 8], Op.irq]).1,
   (irq_confirm_one_way 8 mboxConfirmed
      [Op.poll, Op.enqueue [1, 2, 3, 4, 5, 6, 7, 8], Op.irq]).2 rfl⟩

/-- C8: a successful initialisation reports success, records the register
base, and arms the first Completion Detector pass on the default poll
cadence (exactly one schedule event, on `defaultPollMs`), so the detector
runs without any enqueue ever being made. -/
theorem init_records_base_and_arms (s : Mbox) (cfg : DtConfig)
    (h0 : s.base = 0) (h1 : cfg.hasNode = true) (h2 : cfg.irq ≠ 0)
    (h3 : cfg.lpcPresent = true) (h4 : cfg.hasRegProp = true)
    (h5 : cfg.regCell0IsIoSpace = true) :
    (mbox_init s cfg).2.1 = .ok ∧
      (mbox_init s cfg).1.base = cfg.regBase ∧
      schedules (mbox_init s cfg).2.2 = [Cadence.defaultPollMs] := by
  simp only [mbox_init, h0, h1, h2, h3, h4, h5]
  norm_num
  simp [mbox_init_hw, bmc_mbox_outb, init_timer_events, schedules_append,
    schedules]

/-- A platform configuration on which discovery succeeds. -/
def cfgGood : DtConfig :=
  { hasNode := true, irq := 5, lpcPresent := true, hasRegProp := true,
    regCell0IsIoSpace := true, regBase := 0x1000, chipId := 0 }

/-- Witness for C8: initialising the fresh driver on `cfgGood` succeeds,
records base `0x1000` and schedules the first detector pass. -/
theorem init_records_base_and_arms_witness :
    (mbox_init mboxUninit cfgGood).2.1 = .ok ∧
      (mbox_init mboxUninit cfgGood).1.base = 0x1000 ∧
      schedules (mbox_init mboxUninit cfgGood).2.2 =
        [Cadence.defaultPollMs] :=
  init_records_base_and_arms mboxUninit cfgGood rfl rfl (by decide) rfl rfl
    rfl

end LpcMbox
